import Mathlib

/-!
Shallow embedding of the vibe-kanban frontend list components:
the process-log viewers (`ProcessLogsViewerContent`, two variants of
`VirtualizedProcessLogs`) and the conversation-history lists
(`ConversationList`, two variants of `VirtualizedList`).

Scroll geometry is modelled with integer pixel quantities; the DOM
scroll-container reference is an `Option ScrollEl` (`none` models a null
`parentRef.current`).  Effects that move the scroll position are modelled
as emitted `ScrollCmd` values, and React state plus mutable refs are
modelled as explicit record state threaded through step functions.
-/

namespace VibeKanban

/-- Channel of a raw log entry (the STDOUT / STDERR patch types). -/
inductive LogChannel where
  | stdout
  | stderr
deriving DecidableEq, Repr

/-- A raw log entry: `type LogEntry = Extract<PatchType, {type:'STDOUT'}|{type:'STDERR'}>`. -/
structure LogEntry where
  type : LogChannel
  content : String
deriving DecidableEq, Repr

/-- Modelled from the spec: the normalized structured conversation entry
(`NormalizedEntry` lives in shared types outside this fragment); the spec
describes it only as "a normalized structured entry", so its payload is kept
as an abstract string. -/
structure NormalizedEntry where
  payload : String
deriving DecidableEq, Repr

/-- A conversation entry with a patch key, as consumed by the conversation
lists: raw stdout line, raw stderr line, or a normalized entry linked to an
originating execution process (`PatchTypeWithKey` from
`useConversationHistory`; the three type tags are the ones the render code
branches on and the spec's data model lists). -/
inductive PatchTypeWithKey where
  | stdoutP (patchKey : String) (content : String)
  | stderrP (patchKey : String) (content : String)
  | normalizedP (patchKey : String) (content : NormalizedEntry)
      (executionProcessId : String)
deriving DecidableEq, Repr

/-- Modelled from the spec and the source's comparisons: the add-entry type
delivered by `useConversationHistory` (values "initial", "plan", "running"
are the ones the components compare against). -/
inductive AddEntryType where
  | initial
  | plan
  | running
deriving DecidableEq, Repr

/-- Scroll geometry of the scroll container element (pixel quantities as
integers). -/
structure ScrollEl where
  scrollHeight : Int
  scrollTop : Int
  clientHeight : Int
deriving DecidableEq, Repr

/-- Scroll behavior argument of `el.scrollTo`. -/
inductive ScrollBehavior where
  | auto
  | smooth
deriving DecidableEq, Repr

/-- Alignment argument of `virtualizer.scrollToIndex`. -/
inductive ScrollAlign where
  | atStart
  | atEnd
  | atCenter
deriving DecidableEq, Repr

/-- A scroll command emitted by an effect: either a native
`el.scrollTo({top, behavior})` or a `virtualizer.scrollToIndex(i, {align})`. -/
inductive ScrollCmd where
  | scrollTo (top : Int) (behavior : ScrollBehavior)
  | scrollToIndex (i : Nat) (align : ScrollAlign)
deriving DecidableEq, Repr

/-! ### At-bottom checks and scroll-to-bottom (per component) -/

/-- `ProcessLogsViewerContent.isAtBottom`: null container reports true,
otherwise distance from bottom strictly below the 50px threshold. -/
def plvIsAtBottom (el : Option ScrollEl) : Bool :=
  match el with
  | none => true
  | some e => decide (e.scrollHeight - e.scrollTop - e.clientHeight < 50)

/-- `ProcessLogsViewerContent.scrollToBottom`: null-checked native scroll to
`el.scrollHeight`. -/
def plvScrollToBottom (el : Option ScrollEl) (behavior : ScrollBehavior) :
    Option ScrollCmd :=
  match el with
  | none => none
  | some e => some (ScrollCmd.scrollTo e.scrollHeight behavior)

/-- `VirtualizedProcessLogs.isAtBottom` (first variant): same 50px check as
the other log viewer, null container reports true. -/
def vplIsAtBottom (el : Option ScrollEl) : Bool :=
  match el with
  | none => true
  | some e => decide (e.scrollHeight - e.scrollTop - e.clientHeight < 50)

/-- `VirtualizedProcessLogs.scrollToBottom` (first variant). -/
def vplScrollToBottom (el : Option ScrollEl) (behavior : ScrollBehavior) :
    Option ScrollCmd :=
  match el with
  | none => none
  | some e => some (ScrollCmd.scrollTo e.scrollHeight behavior)

/-- `checkAtBottom` of the second `VirtualizedProcessLogs` variant: stores
the 50px check in `atBottom` state; a null container leaves the cached state
unchanged (early return before `setAtBottom`). -/
def vpl2CheckAtBottom (el : Option ScrollEl) (atBottom : Bool) : Bool :=
  match el with
  | none => atBottom
  | some e => decide (e.scrollHeight - e.scrollTop - e.clientHeight < 50)

/-- `ConversationList.checkAtBottom`: stores the 100px check in `atBottom`
state; a null container leaves the cached state unchanged. -/
def convCheckAtBottom (el : Option ScrollEl) (atBottom : Bool) : Bool :=
  match el with
  | none => atBottom
  | some e => decide (e.scrollHeight - e.scrollTop - e.clientHeight < 100)

/-- `VirtualizedList.checkAtBottom` (first variant): stores the 100px check
in `atBottom` state; a null container leaves the cached state unchanged. -/
def vlCheckAtBottom (el : Option ScrollEl) (atBottom : Bool) : Bool :=
  match el with
  | none => atBottom
  | some e => decide (e.scrollHeight - e.scrollTop - e.clientHeight < 100)

/-- The inline at-bottom check inside the second `VirtualizedList` variant's
retry interval: `el ? el.scrollHeight - el.scrollTop - el.clientHeight < 50
: false`. -/
def vl2IntervalAtBottom (el : Option ScrollEl) : Bool :=
  match el with
  | none => false
  | some e => decide (e.scrollHeight - e.scrollTop - e.clientHeight < 50)

/-! ### Rendering (branch structure and row production) -/

/-- The props a `RawLogText` row receives from the log viewers (content and
stdout/stderr channel; `channel` is stderr exactly when the entry's type is
STDERR). -/
structure RawLogRow where
  content : String
  channel : LogChannel
deriving DecidableEq, Repr

/-- `formatLogLine` of `ProcessLogsViewerContent`: one `RawLogText` row per
entry. -/
def formatLogLine (entry : LogEntry) : RawLogRow :=
  { content := entry.content,
    channel := if entry.type = LogChannel.stderr then LogChannel.stderr
               else LogChannel.stdout }

/-- JavaScript truthiness of the `error : string | null` prop: `null` and
the empty string are falsy, any other string is truthy (this is what the
sources' `!error` and `error ? _ : _` tests compute). -/
def jsStrTruthy : Option String → Bool
  | none => false
  | some s => !s.isEmpty

/-- What a log viewer renders: the no-logs placeholder, the error view, or
the (virtualized) list of rows. -/
inductive LogViewerRender where
  | noLogs
  | errorView (msg : String)
  | listView (rows : List RawLogRow)
deriving DecidableEq, Repr

/-- The rows of a render, empty for the placeholder and error views. -/
def renderedRows : LogViewerRender → List RawLogRow
  | LogViewerRender.listView rows => rows
  | _ => []

/-- Branch structure of `ProcessLogsViewerContent`: empty logs with a falsy
error show the placeholder; otherwise a truthy error shows the error view;
otherwise the virtualized rows (`logs[virtualRow.index]` passed through
`formatLogLine`, here the full list in order). -/
def renderProcessLogsViewerContent (logs : List LogEntry)
    (error : Option String) : LogViewerRender :=
  if logs.length = 0 && !jsStrTruthy error then
    LogViewerRender.noLogs
  else if jsStrTruthy error then
    LogViewerRender.errorView (error.getD "")
  else
    LogViewerRender.listView (logs.map formatLogLine)

/-- A log entry decorated by `VirtualizedProcessLogs`' `logsWithKeys` map:
`{...entry, key: "log-" + index, originalIndex: index}`. -/
structure LogEntryWithKey where
  type : LogChannel
  content : String
  key : String
  originalIndex : Nat
deriving DecidableEq, Repr

/-- `logsWithKeys` of `VirtualizedProcessLogs`:
`logs.map((entry, index) => ({...entry, key: 'log-'+index, originalIndex: index}))`. -/
def logsWithKeys (logs : List LogEntry) : List LogEntryWithKey :=
  (List.range logs.length).zipWith
    (fun index entry =>
      { type := entry.type, content := entry.content,
        key := "log-" ++ toString index, originalIndex := index })
    logs

/-- Row production of `VirtualizedProcessLogs`: the row for a virtual index
shows `logsWithKeys[virtualRow.index]`'s content on its channel. -/
def vplRow (e : LogEntryWithKey) : RawLogRow :=
  { content := e.content,
    channel := if e.type = LogChannel.stderr then LogChannel.stderr
               else LogChannel.stdout }

/-- Branch structure of `VirtualizedProcessLogs` (both variants share it):
empty logs with falsy error show the placeholder, truthy error shows the
error view, otherwise the virtualized rows over `logsWithKeys`. -/
def renderVirtualizedProcessLogs (logs : List LogEntry)
    (error : Option String) : LogViewerRender :=
  if logs.length = 0 && !jsStrTruthy error then
    LogViewerRender.noLogs
  else if jsStrTruthy error then
    LogViewerRender.errorView (error.getD "")
  else
    LogViewerRender.listView ((logsWithKeys logs).map vplRow)

/-- What a conversation list renders for one entry: a plain paragraph for
raw stdout/stderr, or a `DisplayConversationEntry` keyed by the patch key
and linked to the originating process. -/
inductive ConvRow where
  | textRow (patchKey : String) (content : String)
  | entryRow (patchKey : String) (content : NormalizedEntry)
      (executionProcessId : String)
deriving DecidableEq, Repr

/-- Row production of the conversation lists: the row for a virtual index
renders `entries[virtualRow.index]`, branching on its type tag. -/
def convRenderEntry : PatchTypeWithKey → ConvRow
  | PatchTypeWithKey.stdoutP k c => ConvRow.textRow k c
  | PatchTypeWithKey.stderrP k c => ConvRow.textRow k c
  | PatchTypeWithKey.normalizedP k c pid => ConvRow.entryRow k c pid

/-- The row a conversation list places at virtual index `i`: the rendering
of `entries[i]` when in range (`none` models an out-of-range virtual row). -/
def convRowAt (entries : List PatchTypeWithKey) (i : Nat) : Option ConvRow :=
  (entries.get? i).map convRenderEntry

/-- The rows a conversation list renders for a given list of visible
virtual indices, in virtualizer order. -/
def convRenderRows (entries : List PatchTypeWithKey)
    (visible : List Nat) : List ConvRow :=
  visible.filterMap (convRowAt entries)

/-! ### Initial-scroll effects (the "jump to bottom once data appears" path) -/

/-- One run of `ProcessLogsViewerContent`'s initial-scroll effect: when the
`didInitScroll` ref is unset and `logs.length > 0`, set the ref and trigger
the (retried) scroll; returns the new ref value and whether the initial
scroll was triggered this run. -/
def plvInitScrollEffect (didInitScroll : Bool) (logsLen : Nat) :
    Bool × Bool :=
  if !didInitScroll && decide (0 < logsLen) then (true, true)
  else (didInitScroll, false)

/-- The triggers produced by running `ProcessLogsViewerContent`'s
initial-scroll effect over a sequence of observed log lengths. -/
def plvInitScrollRun (didInitScroll : Bool) : List Nat → List Bool
  | [] => []
  | len :: rest =>
      let r := plvInitScrollEffect didInitScroll len
      r.2 :: plvInitScrollRun r.1 rest

/-- One run of `ConversationList` / `VirtualizedList`'s initial-scroll
effect: triggers when the ref is unset, entries are non-empty and loading
has finished. -/
def convInitScrollEffect (didInitScroll : Bool) (entriesLen : Nat)
    (loading : Bool) : Bool × Bool :=
  if !didInitScroll && decide (0 < entriesLen) && !loading then (true, true)
  else (didInitScroll, false)

/-- The triggers produced by running the conversation lists' initial-scroll
effect over a sequence of observed (entry count, loading) pairs. -/
def convInitScrollRun (didInitScroll : Bool) : List (Nat × Bool) → List Bool
  | [] => []
  | obs :: rest =>
      let r := convInitScrollEffect didInitScroll obs.1 obs.2
      r.2 :: convInitScrollRun r.1 rest

/-! ### Growth auto-scroll effects -/

/-- `ProcessLogsViewerContent`'s growth effect: updates the previous-length
ref and, when the list grew after the initial scroll, schedules the 50ms
deferred check; returns the new ref value and whether a deferred check was
scheduled. -/
def plvAutoScrollEffect (prevLen : Nat) (didInitScroll : Bool)
    (logsLen : Nat) : Nat × Bool :=
  (logsLen,
   decide (prevLen < logsLen) && decide (0 < logsLen) && didInitScroll)

/-- The deferred callback `ProcessLogsViewerContent` schedules on growth:
re-check at-bottom against the live container and scroll smoothly to the
bottom only if still at bottom. -/
def plvDeferredScroll (el : Option ScrollEl) : Option ScrollCmd :=
  if plvIsAtBottom el then plvScrollToBottom el ScrollBehavior.smooth
  else none

/-- `VirtualizedProcessLogs`' (first variant) growth effect: same shape as
the other log viewer. -/
def vplAutoScrollEffect (prevLogsLen : Nat) (didInitScroll : Bool)
    (logsLen : Nat) : Nat × Bool :=
  (logsLen,
   decide (prevLogsLen < logsLen) && decide (0 < logsLen) && didInitScroll)

/-- The deferred callback of `VirtualizedProcessLogs` (first variant). -/
def vplDeferredScroll (el : Option ScrollEl) : Option ScrollCmd :=
  if vplIsAtBottom el then vplScrollToBottom el ScrollBehavior.smooth
  else none

/-- The second `VirtualizedProcessLogs` variant's growth effect: scrolls the
virtualizer to the last index when the list grew and the cached `atBottom`
state is set. -/
def vpl2AutoScrollEffect (prevLogsLen : Nat) (atBottom : Bool)
    (logsLen : Nat) : Nat × Option ScrollCmd :=
  (logsLen,
   if decide (prevLogsLen < logsLen) && atBottom && decide (0 < logsLen) then
     some (ScrollCmd.scrollToIndex (logsLen - 1) ScrollAlign.atEnd)
   else none)

/-- The mutable refs `ConversationList`'s growth effect reads and writes. -/
structure ConvScrollRefs where
  prevEntriesLength : Nat
  didInitScroll : Bool
  addType : AddEntryType
deriving DecidableEq, Repr

/-- `ConversationList`'s growth effect: after growth past the initial
scroll, a "plan" update scrolls the last entry's top into view regardless of
scroll position, a "running" update scrolls to the bottom only when the
cached `atBottom` state is set, and an "initial" update never scrolls. -/
def convAutoScrollEffect (r : ConvScrollRefs) (entriesLen : Nat)
    (atBottom : Bool) (loading : Bool) : ConvScrollRefs × Option ScrollCmd :=
  let r' := { r with prevEntriesLength := entriesLen }
  if decide (r.prevEntriesLength < entriesLen) && decide (0 < entriesLen)
      && r.didInitScroll then
    if r.addType = AddEntryType.plan && !loading then
      (r', some (ScrollCmd.scrollToIndex (entriesLen - 1) ScrollAlign.atStart))
    else if r.addType = AddEntryType.running && !loading && atBottom then
      (r', some (ScrollCmd.scrollToIndex (entriesLen - 1) ScrollAlign.atEnd))
    else (r', none)
  else (r', none)

/-- `VirtualizedList`'s (first variant) growth effect: scrolls to the bottom
when the list grew, the cached `atBottom` state is set, the initial scroll
happened and the add type is "running" or "plan". -/
def vlAutoScrollEffect (r : ConvScrollRefs) (entriesLen : Nat)
    (atBottom : Bool) : ConvScrollRefs × Option ScrollCmd :=
  let r' := { r with prevEntriesLength := entriesLen }
  if decide (r.prevEntriesLength < entriesLen) && atBottom
      && decide (0 < entriesLen) && r.didInitScroll then
    if r.addType = AddEntryType.running || r.addType = AddEntryType.plan then
      (r', some (ScrollCmd.scrollToIndex (entriesLen - 1) ScrollAlign.atEnd))
    else (r', none)
  else (r', none)

/-- The second `VirtualizedList` variant's scroll effect: whenever the entry
count changes to a non-zero value it immediately scrolls the last entry into
view (and keeps retrying on an interval), regardless of scroll position. -/
def vl2ScrollEffect (entriesLen : Nat) : Option ScrollCmd :=
  if entriesLen = 0 then none
  else some (ScrollCmd.scrollToIndex (entriesLen - 1) ScrollAlign.atEnd)

/-! ### `ConversationList` (debounced variant): state machine -/

/-- One update delivered by `useConversationHistory` to `onEntriesUpdated`:
the new entry list, the add type and the new loading flag. -/
structure EntriesUpdate where
  entries : List PatchTypeWithKey
  addType : AddEntryType
  loading : Bool
deriving DecidableEq, Repr

/-- The debounce window of `ConversationList`'s `onEntriesUpdated`. -/
def debounceDelayMs : Nat := 100

/-- The React state, mutable refs and shared-context slice of
`ConversationList`.  `contextEntries` models the shared `EntriesContext`
(modelled from the spec: the context itself lives outside this fragment and
holds the entry list published via `setEntries` / cleared via `reset`).
`debounceDeadline` is the absolute fire time of the pending debounce timer
(`none` when no timer is pending), and `applied` is a ghost history of the
updates actually applied by timer fires. -/
structure ConvState where
  entriesState : List PatchTypeWithKey
  loading : Bool
  didInitScroll : Bool
  prevEntriesLength : Nat
  atBottom : Bool
  addTypeRef : AddEntryType
  contextEntries : List PatchTypeWithKey
  pendingUpdate : Option EntriesUpdate
  debounceDeadline : Option Nat
  applied : List EntriesUpdate
deriving DecidableEq, Repr

/-- `ConversationList.onEntriesUpdated` at time `now`: overwrite the single
pending-update ref, clear any pending timer and start a fresh
`debounceDelayMs` timer. -/
def convOnEntriesUpdated (now : Nat) (s : ConvState) (u : EntriesUpdate) :
    ConvState :=
  { s with pendingUpdate := some u,
           debounceDeadline := some (now + debounceDelayMs) }

/-- The debounce timer firing: nothing happens without a pending timer;
otherwise the pending update (if any) is applied to the add-type ref, the
component entry state, the shared entries context, and — only while still
loading — the loading flag. -/
def convFire (s : ConvState) : ConvState :=
  match s.debounceDeadline with
  | none => s
  | some _ =>
      match s.pendingUpdate with
      | none => { s with debounceDeadline := none }
      | some p =>
          { s with debounceDeadline := none,
                   addTypeRef := p.addType,
                   entriesState := p.entries,
                   contextEntries := p.entries,
                   loading := if s.loading then p.loading else s.loading,
                   applied := s.applied ++ [p] }

/-- `ConversationList`'s unmount cleanup: `clearTimeout` on the pending
debounce timer. -/
def convUnmount (s : ConvState) : ConvState :=
  { s with debounceDeadline := none }

/-- `ConversationList`'s attempt-change effect: loading back to true, entry
state emptied, initial-scroll flag and previous-length ref back to their
initial values, shared entries context reset. -/
def convAttemptReset (s : ConvState) : ConvState :=
  { s with loading := true,
           entriesState := [],
           didInitScroll := false,
           prevEntriesLength := 0,
           contextEntries := [] }

/-- Event-loop run of a sequence of timed updates: before each update
arrives, the pending timer fires if its deadline has passed; then the update
goes through `convOnEntriesUpdated`. -/
def convRunUpdates (s : ConvState) : List (Nat × EntriesUpdate) → ConvState
  | [] => s
  | (t, u) :: rest =>
      let s1 :=
        match s.debounceDeadline with
        | some d => if d ≤ t then convFire s else s
        | none => s
      convRunUpdates (convOnEntriesUpdated t s1 u) rest

/-- `arrivalsOk deadline us`: each update in `us` arrives strictly before
the deadline of the timer started by its predecessor (the first one before
`deadline`), i.e. every update in the chain supersedes the previous one
within the debounce window. -/
def arrivalsOk (deadline : Nat) : List (Nat × EntriesUpdate) → Bool
  | [] => true
  | (t, _) :: rest => decide (t < deadline) && arrivalsOk (t + debounceDelayMs) rest

/-! ### `VirtualizedList` variants: update callbacks and attempt reset -/

/-- The React state, refs and shared-context slice of the first
`VirtualizedList` variant (no debounce). -/
structure VlState where
  entriesState : List PatchTypeWithKey
  loading : Bool
  didInitScroll : Bool
  prevEntriesLength : Nat
  atBottom : Bool
  addTypeRef : AddEntryType
  contextEntries : List PatchTypeWithKey
deriving DecidableEq, Repr

/-- `VirtualizedList.onEntriesUpdated` (first variant): applied immediately,
loading updated only while still loading. -/
def vlOnEntriesUpdated (s : VlState) (u : EntriesUpdate) : VlState :=
  { s with addTypeRef := u.addType,
           entriesState := u.entries,
           contextEntries := u.entries,
           loading := if s.loading then u.loading else s.loading }

/-- `VirtualizedList`'s (first variant) attempt-change effect. -/
def vlAttemptReset (s : VlState) : VlState :=
  { s with loading := true,
           entriesState := [],
           didInitScroll := false,
           prevEntriesLength := 0,
           contextEntries := [] }

/-- The React state and shared-context slice of the second
`VirtualizedList` variant. -/
structure Vl2State where
  entriesState : List PatchTypeWithKey
  loading : Bool
  contextEntries : List PatchTypeWithKey
deriving DecidableEq, Repr

/-- `onEntriesUpdated` of the second `VirtualizedList` variant: applied
immediately; loading is set to false exactly when `newLoading === false`,
never set back to true. -/
def vl2OnEntriesUpdated (s : Vl2State) (newEntries : List PatchTypeWithKey)
    (newLoading : Bool) : Vl2State :=
  { s with entriesState := newEntries,
           contextEntries := newEntries,
           loading := if newLoading = false then false else s.loading }

/-- The second `VirtualizedList` variant's attempt-change effect. -/
def vl2AttemptReset (s : Vl2State) : Vl2State :=
  { s with loading := true,
           entriesState := [],
           contextEntries := [] }

/-! ### Log-viewer timers and unmount -/

/-- The timer callbacks the log viewers schedule: the retried initial
scroll (`doScroll attempts`) and the 50ms deferred at-bottom check of the
growth effect. -/
inductive LogTimerTask where
  | initScrollRetry (attemptsLeft : Nat)
  | deferredBottomCheck
deriving DecidableEq, Repr

/-- The log viewers (`ProcessLogsViewerContent`, `VirtualizedProcessLogs`)
register no cleanup for their `setTimeout` calls: unmount leaves every
pending timer in place.  Modelled as the identity on the pending-timer
list, faithful to the absence of any cleanup function in those effects. -/
def plvUnmountCleanup (pending : List LogTimerTask) : List LogTimerTask :=
  pending

/-- Firing a pending log-viewer timer against the (possibly unmounted,
hence possibly null) container: an initial-scroll retry scrolls to the
bottom, a deferred check scrolls only if still at bottom. -/
def fireLogTimer (el : Option ScrollEl) : LogTimerTask → Option ScrollCmd
  | LogTimerTask.initScrollRetry _ => plvScrollToBottom el ScrollBehavior.auto
  | LogTimerTask.deferredBottomCheck => plvDeferredScroll el

/-! ## Claims -/

/-- Claim C3: on a scroll event every component decides "user is at the
bottom" exactly when `scrollHeight - scrollTop - clientHeight` is strictly
below the fixed threshold — 50 px in the log viewers
(`ProcessLogsViewerContent.isAtBottom`, both `VirtualizedProcessLogs`
checks), 100 px in the conversation lists (`ConversationList.checkAtBottom`,
`VirtualizedList.checkAtBottom`) — and no other quantity enters the check:
two containers with the same distance from the bottom are classified
identically, whatever their individual geometry. -/
theorem C3_at_bottom_threshold :
    (∀ el : ScrollEl,
      plvIsAtBottom (some el)
        = decide (el.scrollHeight - el.scrollTop - el.clientHeight < 50) ∧
      vplIsAtBottom (some el)
        = decide (el.scrollHeight - el.scrollTop - el.clientHeight < 50) ∧
      (∀ b : Bool, vpl2CheckAtBottom (some el) b
        = decide (el.scrollHeight - el.scrollTop - el.clientHeight < 50)) ∧
      (∀ b : Bool, convCheckAtBottom (some el) b
        = decide (el.scrollHeight - el.scrollTop - el.clientHeight < 100)) ∧
      (∀ b : Bool, vlCheckAtBottom (some el) b
        = decide (el.scrollHeight - el.scrollTop - el.clientHeight < 100))) ∧
    (∀ el el' : ScrollEl,
      el.scrollHeight - el.scrollTop - el.clientHeight
          = el'.scrollHeight - el'.scrollTop - el'.clientHeight →
      plvIsAtBottom (some el) = plvIsAtBottom (some el') ∧
      vplIsAtBottom (some el) = vplIsAtBottom (some el') ∧
      (∀ b : Bool, vpl2CheckAtBottom (some el) b = vpl2CheckAtBottom (some el') b) ∧
      (∀ b : Bool, convCheckAtBottom (some el) b = convCheckAtBottom (some el') b) ∧
      (∀ b : Bool, vlCheckAtBottom (some el) b = vlCheckAtBottom (some el') b)) := by
  constructor
  · intro el
    exact ⟨rfl, rfl, fun _ => rfl, fun _ => rfl, fun _ => rfl⟩
  · intro el el' h
    refine ⟨?_, ?_, fun _ => ?_, fun _ => ?_, fun _ => ?_⟩ <;>
      simp [plvIsAtBottom, vplIsAtBottom, vpl2CheckAtBottom, convCheckAtBottom,
        vlCheckAtBottom, h]

/-- Witness for C3 at two concrete containers sitting 20 px from the
bottom with different geometries. -/
theorem C3_witness :
    plvIsAtBottom (some ⟨100, 60, 20⟩) = plvIsAtBottom (some ⟨200, 160, 20⟩) ∧
    vplIsAtBottom (some ⟨100, 60, 20⟩) = vplIsAtBottom (some ⟨200, 160, 20⟩) ∧
    (∀ b : Bool,
      vpl2CheckAtBottom (some ⟨100, 60, 20⟩) b
        = vpl2CheckAtBottom (some ⟨200, 160, 20⟩) b) ∧
    (∀ b : Bool,
      convCheckAtBottom (some ⟨100, 60, 20⟩) b
        = convCheckAtBottom (some ⟨200, 160, 20⟩) b) ∧
    (∀ b : Bool,
      vlCheckAtBottom (some ⟨100, 60, 20⟩) b
        = vlCheckAtBottom (some ⟨200, 160, 20⟩) b) :=
  C3_at_bottom_threshold.2 ⟨100, 60, 20⟩ ⟨200, 160, 20⟩ (by decide)

/-- Claim C8: every scroll-container operation null-checks the DOM
reference first and degrades gracefully on a null container: the native
scroll-to-bottom of both log viewers emits nothing, the log viewers'
at-bottom checks report true, the cached-state checks of the second
`VirtualizedProcessLogs` variant and of the conversation lists leave the
cached `atBottom` state unchanged, and the plain `VirtualizedList` retry
interval's inline check yields the default false. -/
theorem C8_null_container_safe :
    (∀ b : ScrollBehavior, plvScrollToBottom none b = none) ∧
    (∀ b : ScrollBehavior, vplScrollToBottom none b = none) ∧
    plvIsAtBottom none = true ∧
    vplIsAtBottom none = true ∧
    (∀ cached : Bool, vpl2CheckAtBottom none cached = cached) ∧
    (∀ cached : Bool, convCheckAtBottom none cached = cached) ∧
    (∀ cached : Bool, vlCheckAtBottom none cached = cached) ∧
    vl2IntervalAtBottom none = false :=
  ⟨fun _ => rfl, fun _ => rfl, rfl, rfl, fun _ => rfl, fun _ => rfl,
   fun _ => rfl, rfl⟩

/-- Claim C9: on an attempt change the conversation lists reset their state
before consuming new data — entries emptied, loading back to true, the
initial-scroll flag and previous-length counter back to their initial
values, and the shared entries context reset — while the cached `atBottom`
state, the add-type ref, any pending debounce material and the ghost
history stay untouched. -/
theorem C9_attempt_change_reset :
    ∀ (s : ConvState) (sv : VlState),
      (convAttemptReset s).entriesState = [] ∧
      (convAttemptReset s).loading = true ∧
      (convAttemptReset s).didInitScroll = false ∧
      (convAttemptReset s).prevEntriesLength = 0 ∧
      (convAttemptReset s).contextEntries = [] ∧
      (convAttemptReset s).atBottom = s.atBottom ∧
      (convAttemptReset s).addTypeRef = s.addTypeRef ∧
      (convAttemptReset s).pendingUpdate = s.pendingUpdate ∧
      (convAttemptReset s).debounceDeadline = s.debounceDeadline ∧
      (convAttemptReset s).applied = s.applied ∧
      (vlAttemptReset sv).entriesState = [] ∧
      (vlAttemptReset sv).loading = true ∧
      (vlAttemptReset sv).didInitScroll = false ∧
      (vlAttemptReset sv).prevEntriesLength = 0 ∧
      (vlAttemptReset sv).contextEntries = [] ∧
      (vlAttemptReset sv).atBottom = sv.atBottom ∧
      (vlAttemptReset sv).addTypeRef = sv.addTypeRef := by
  intro s sv
  refine ⟨rfl, rfl, rfl, rfl, rfl, rfl, rfl, rfl, rfl, rfl, rfl, rfl, rfl,
    rfl, rfl, rfl, rfl⟩

/-- Claim C10: between attempt changes the loading flag of every
conversation-list variant is monotone — once false, no entries-update
application (debounced fire, immediate callback, or the second variant's
callback) sets it back to true — and only the attempt-change effect
restores it to true. -/
theorem C10_loading_monotone :
    ∀ (s : ConvState) (sv : VlState) (s2 : Vl2State) (u : EntriesUpdate)
      (es : List PatchTypeWithKey) (nl : Bool),
      (s.loading = false → (convFire s).loading = false) ∧
      (sv.loading = false → (vlOnEntriesUpdated sv u).loading = false) ∧
      (s2.loading = false → (vl2OnEntriesUpdated s2 es nl).loading = false) ∧
      (convAttemptReset s).loading = true ∧
      (vlAttemptReset sv).loading = true ∧
      (vl2AttemptReset s2).loading = true := by
  intro s sv s2 u es nl
  refine ⟨?_, ?_, ?_, rfl, rfl, rfl⟩
  · intro h
    unfold convFire
    cases hd : s.debounceDeadline with
    | none => exact h
    | some d =>
        cases hp : s.pendingUpdate with
        | none => exact h
        | some p => simp [h]
  · intro h
    simp [vlOnEntriesUpdated, h]
  · intro h
    cases nl <;> simp [vl2OnEntriesUpdated, h]

/-- Witness for C10: a concrete already-loaded state of each variant stays
non-loading through an update application. -/
theorem C10_witness :
    (convFire
      { entriesState := [], loading := false, didInitScroll := true,
        prevEntriesLength := 0, atBottom := true,
        addTypeRef := AddEntryType.initial, contextEntries := [],
        pendingUpdate :=
          some { entries := [], addType := AddEntryType.running, loading := true },
        debounceDeadline := some 7, applied := [] }).loading = false ∧
    (vlOnEntriesUpdated
      { entriesState := [], loading := false, didInitScroll := true,
        prevEntriesLength := 0, atBottom := true,
        addTypeRef := AddEntryType.initial, contextEntries := [] }
      { entries := [], addType := AddEntryType.running, loading := true }).loading
      = false ∧
    (vl2OnEntriesUpdated
      { entriesState := [], loading := false, contextEntries := [] }
      [] true).loading = false := by
  have h := C10_loading_monotone
    { entriesState := [], loading := false, didInitScroll := true,
      prevEntriesLength := 0, atBottom := true,
      addTypeRef := AddEntryType.initial, contextEntries := [],
      pendingUpdate :=
        some { entries := [], addType := AddEntryType.running, loading := true },
      debounceDeadline := some 7, applied := [] }
    { entriesState := [], loading := false, didInitScroll := true,
      prevEntriesLength := 0, atBottom := true,
      addTypeRef := AddEntryType.initial, contextEntries := [] }
    { entriesState := [], loading := false, contextEntries := [] }
    { entries := [], addType := AddEntryType.running, loading := true }
    [] true
  exact ⟨h.1 rfl, h.2.1 rfl, h.2.2.1 rfl⟩

/-- Counterexample to claim C2 as stated: the empty string is a non-null
error value, yet with it `ProcessLogsViewerContent` falls through both the
`logs.length === 0 && !error` and the `error ?` branches (JavaScript
truthiness treats the empty string as falsy) and renders the log rows; with
an empty log list it renders the no-logs placeholder instead of the error.
So a non-null error is not always displayed in place of the list. -/
theorem C2_counterexample :
    renderedRows (renderProcessLogsViewerContent
        [{ type := LogChannel.stdout, content := "hi" }] (some "")) ≠ [] ∧
    renderProcessLogsViewerContent
        [{ type := LogChannel.stdout, content := "hi" }] (some "")
      ≠ LogViewerRender.errorView "" ∧
    renderProcessLogsViewerContent [] (some "") = LogViewerRender.noLogs ∧
    renderVirtualizedProcessLogs [] (some "") = LogViewerRender.noLogs := by
  refine ⟨?_, ?_, rfl, rfl⟩ <;> decide

/-- Claim C2 (amended): whenever the error prop is a non-empty string, both
log viewers render that error string in place of the list and no log rows
are rendered, for empty and non-empty entry lists alike; the empty string
is treated as the absence of an error. -/
theorem C2_error_replaces_list :
    ∀ (logs : List LogEntry) (msg : String), msg ≠ "" →
      renderProcessLogsViewerContent logs (some msg)
        = LogViewerRender.errorView msg ∧
      renderedRows (renderProcessLogsViewerContent logs (some msg)) = [] ∧
      renderVirtualizedProcessLogs logs (some msg)
        = LogViewerRender.errorView msg ∧
      renderedRows (renderVirtualizedProcessLogs logs (some msg)) = [] := by
  intro logs msg h
  have hne : msg.isEmpty = false := by
    cases he : msg.isEmpty with
    | false => rfl
    | true => exact absurd ((String.isEmpty_iff msg).mp he) h
  have ht : jsStrTruthy (some msg) = true := by
    simp [jsStrTruthy, hne]
  refine ⟨?_, ?_, ?_, ?_⟩ <;>
    simp [renderProcessLogsViewerContent, renderVirtualizedProcessLogs, ht,
      renderedRows]

/-- Witness for C2 at a concrete non-empty error, with an empty and with a
non-empty log list. -/
theorem C2_witness :
    (renderProcessLogsViewerContent [] (some "boom")
        = LogViewerRender.errorView "boom" ∧
      renderedRows (renderProcessLogsViewerContent [] (some "boom")) = [] ∧
      renderVirtualizedProcessLogs [] (some "boom")
        = LogViewerRender.errorView "boom" ∧
      renderedRows (renderVirtualizedProcessLogs [] (some "boom")) = []) ∧
    renderProcessLogsViewerContent
        [{ type := LogChannel.stderr, content := "x" }] (some "boom")
      = LogViewerRender.errorView "boom" :=
  ⟨C2_error_replaces_list [] "boom" (by decide),
   (C2_error_replaces_list [{ type := LogChannel.stderr, content := "x" }]
     "boom" (by decide)).1⟩

/-- Counterexample to claim C1 as stated: in `ConversationList`, a growth
from 1 to 2 entries after the initial scroll with add type "plan" emits a
scroll command even though the user is NOT at the bottom (`atBottom =
false`), so the scroll position does not stay unchanged; and a growth with
add type "initial" while the user IS at the bottom emits no scroll at all.
The second `VirtualizedList` variant likewise scrolls on every non-empty
entry count regardless of scroll position. -/
theorem C1_counterexample :
    (convAutoScrollEffect
        { prevEntriesLength := 1, didInitScroll := true,
          addType := AddEntryType.plan } 2 false false).2
      = some (ScrollCmd.scrollToIndex 1 ScrollAlign.atStart) ∧
    (convAutoScrollEffect
        { prevEntriesLength := 1, didInitScroll := true,
          addType := AddEntryType.plan } 2 false false).2 ≠ none ∧
    (convAutoScrollEffect
        { prevEntriesLength := 1, didInitScroll := true,
          addType := AddEntryType.initial } 2 true false).2 = none ∧
    vl2ScrollEffect 2 = some (ScrollCmd.scrollToIndex 1 ScrollAlign.atEnd) := by
  refine ⟨rfl, ?_, rfl, rfl⟩
  decide

/-- Claim C1 (amended): after the initial scroll, on an entry-list growth
the log viewers scroll to the bottom exactly when the (re-checked or
cached) at-bottom state holds and leave the position unchanged otherwise;
the conversation lists are add-type dependent — `ConversationList` scrolls
the last entry into view for "plan" updates regardless of scroll position,
scrolls to the bottom for "running" updates only when at the bottom, and
never for "initial" updates, while `VirtualizedList` scrolls only when at
the bottom and the add type is "running" or "plan" — and the plain second
`VirtualizedList` variant scrolls to the last entry on every non-empty
entry count regardless of scroll position. -/
theorem C1_growth_auto_scroll :
    (∀ el : ScrollEl,
      (plvIsAtBottom (some el) = true →
        plvDeferredScroll (some el)
          = some (ScrollCmd.scrollTo el.scrollHeight ScrollBehavior.smooth)) ∧
      (plvIsAtBottom (some el) = false → plvDeferredScroll (some el) = none) ∧
      (vplIsAtBottom (some el) = true →
        vplDeferredScroll (some el)
          = some (ScrollCmd.scrollTo el.scrollHeight ScrollBehavior.smooth)) ∧
      (vplIsAtBottom (some el) = false → vplDeferredScroll (some el) = none)) ∧
    (∀ prevLen logsLen : Nat, prevLen < logsLen →
      (vpl2AutoScrollEffect prevLen true logsLen).2
        = some (ScrollCmd.scrollToIndex (logsLen - 1) ScrollAlign.atEnd) ∧
      (vpl2AutoScrollEffect prevLen false logsLen).2 = none) ∧
    (∀ (r : ConvScrollRefs) (len : Nat) (atB : Bool),
      r.prevEntriesLength < len → r.didInitScroll = true →
      (r.addType = AddEntryType.plan →
        (convAutoScrollEffect r len atB false).2
          = some (ScrollCmd.scrollToIndex (len - 1) ScrollAlign.atStart)) ∧
      (r.addType = AddEntryType.running →
        (convAutoScrollEffect r len atB false).2
          = if atB then some (ScrollCmd.scrollToIndex (len - 1) ScrollAlign.atEnd)
            else none) ∧
      (r.addType = AddEntryType.initial →
        (convAutoScrollEffect r len atB false).2 = none)) ∧
    (∀ (r : ConvScrollRefs) (len : Nat),
      r.prevEntriesLength < len → r.didInitScroll = true →
      (vlAutoScrollEffect r len false).2 = none ∧
      ((r.addType = AddEntryType.running ∨ r.addType = AddEntryType.plan) →
        (vlAutoScrollEffect r len true).2
          = some (ScrollCmd.scrollToIndex (len - 1) ScrollAlign.atEnd)) ∧
      (r.addType = AddEntryType.initial →
        (vlAutoScrollEffect r len true).2 = none)) ∧
    (∀ len : Nat, 0 < len →
      vl2ScrollEffect len
        = some (ScrollCmd.scrollToIndex (len - 1) ScrollAlign.atEnd)) := by
  refine ⟨?_, ?_, ?_, ?_, ?_⟩
  · intro el
    refine ⟨?_, ?_, ?_, ?_⟩ <;> intro h <;>
      simp [plvDeferredScroll, vplDeferredScroll, plvScrollToBottom,
        vplScrollToBottom, h]
  · intro prevLen logsLen h
    have h0 : 0 < logsLen := Nat.lt_of_le_of_lt (Nat.zero_le _) h
    constructor <;> simp [vpl2AutoScrollEffect, h, h0]
  · intro r len atB hlt hinit
    have h0 : 0 < len := Nat.lt_of_le_of_lt (Nat.zero_le _) hlt
    refine ⟨?_, ?_, ?_⟩ <;> intro hty <;>
      cases atB <;> simp [convAutoScrollEffect, hlt, h0, hinit, hty]
  · intro r len hlt hinit
    have h0 : 0 < len := Nat.lt_of_le_of_lt (Nat.zero_le _) hlt
    refine ⟨?_, ?_, ?_⟩
    · simp [vlAutoScrollEffect]
    · intro hty
      rcases hty with hty | hty <;> simp [vlAutoScrollEffect, hlt, h0, hinit, hty]
    · intro hty
      simp [vlAutoScrollEffect, hlt, h0, hinit, hty]
  · intro len h0
    simp [vl2ScrollEffect, Nat.pos_iff_ne_zero.mp h0]

/-- Witness for C1 at concrete inputs: a container 10 px from the bottom
(at bottom) and one 300 px away (not at bottom), a growth from 1 to 2
entries in each variant, and each add type. -/
theorem C1_witness :
    (plvDeferredScroll (some ⟨500, 480, 10⟩)
        = some (ScrollCmd.scrollTo 500 ScrollBehavior.smooth)) ∧
    (plvDeferredScroll (some ⟨500, 100, 100⟩) = none) ∧
    ((vpl2AutoScrollEffect 1 true 2).2
        = some (ScrollCmd.scrollToIndex 1 ScrollAlign.atEnd)) ∧
    ((vpl2AutoScrollEffect 1 false 2).2 = none) ∧
    ((convAutoScrollEffect
        { prevEntriesLength := 1, didInitScroll := true,
          addType := AddEntryType.running } 2 true false).2
        = some (ScrollCmd.scrollToIndex 1 ScrollAlign.atEnd)) ∧
    ((vlAutoScrollEffect
        { prevEntriesLength := 1, didInitScroll := true,
          addType := AddEntryType.running } 2 true).2
        = some (ScrollCmd.scrollToIndex 1 ScrollAlign.atEnd)) ∧
    vl2ScrollEffect 1 = some (ScrollCmd.scrollToIndex 0 ScrollAlign.atEnd) := by
  have h1 := (C1_growth_auto_scroll.1 ⟨500, 480, 10⟩).1 (by decide)
  have h2 := (C1_growth_auto_scroll.1 ⟨500, 100, 100⟩).2.1 (by decide)
  have h3 := C1_growth_auto_scroll.2.1 1 2 (by decide)
  have h4 := (C1_growth_auto_scroll.2.2.1
    { prevEntriesLength := 1, didInitScroll := true,
      addType := AddEntryType.running } 2 true (by decide) rfl).2.1 rfl
  have h5 := (C1_growth_auto_scroll.2.2.2.1
    { prevEntriesLength := 1, didInitScroll := true,
      addType := AddEntryType.running } 2 (by decide) rfl).2.1 (Or.inl rfl)
  have h6 := C1_growth_auto_scroll.2.2.2.2 1 (by decide)
  exact ⟨h1, h2, h3.1, h3.2, by simpa using h4, h5, h6⟩

/-- Helper: the decorated log list places at index `i` exactly the input
entry at index `i`, keyed by that index. -/
theorem logsWithKeys_get? (logs : List LogEntry) (i : Nat) :
    (logsWithKeys logs).get? i
      = (logs.get? i).map (fun entry =>
          { type := entry.type, content := entry.content,
            key := "log-" ++ toString i, originalIndex := i }) := by
  unfold logsWithKeys
  rw [List.get?_zipWith']
  by_cases h : i < logs.length
  · rw [List.get?_eq_getElem?, List.getElem?_range h]
    simp
  · have h1 : (List.range logs.length)[i]? = none := by
      simp [List.getElem?_eq_none, Nat.le_of_not_lt h]
    have h2 : logs[i]? = none := by
      simp [List.getElem?_eq_none, Nat.le_of_not_lt h]
    simp [List.get?_eq_getElem?, h1, h2]

/-- Helper: decorating with keys and rendering gives the same rows, in the
same order, as rendering the raw list directly. -/
theorem zipWithKeys_map_vplRow :
    ∀ (logs : List LogEntry) (ns : List Nat), ns.length = logs.length →
      (ns.zipWith (fun index entry =>
          ({ type := entry.type, content := entry.content,
             key := "log-" ++ toString index, originalIndex := index } :
            LogEntryWithKey)) logs).map vplRow = logs.map formatLogLine := by
  intro logs
  induction logs with
  | nil => intro ns _; simp
  | cons e rest ih =>
      intro ns h
      cases ns with
      | nil => simp at h
      | cons n ns' =>
          have hh : ns'.length = rest.length := by simpa using h
          simp only [List.zipWith_cons_cons, List.map_cons, ih ns' hh]
          rfl

/-- Helper: rendering the full index range of a conversation entry list
yields every entry, rendered, in received order. -/
theorem convRenderRows_full (entries : List PatchTypeWithKey) :
    convRenderRows entries (List.range entries.length)
      = entries.map convRenderEntry := by
  induction entries with
  | nil => rfl
  | cons e rest ih =>
      show convRenderRows (e :: rest) (List.range (rest.length + 1))
        = convRenderEntry e :: rest.map convRenderEntry
      rw [List.range_succ_eq_map]
      unfold convRenderRows
      rw [List.filterMap_cons]
      have h0 : convRowAt (e :: rest) 0 = some (convRenderEntry e) := rfl
      rw [h0, List.filterMap_map]
      have hcomp : (convRowAt (e :: rest)) ∘ Nat.succ = convRowAt rest := rfl
      rw [hcomp]
      exact congrArg _ ih

/-- Claim C4: the rendered rows preserve received order — the decorated log
list (`logsWithKeys`) keeps each entry at its original position with
`originalIndex = i`, has the input's length, and renders position for
position to the same rows as the raw input; the conversation lists place at
virtual index `i` precisely the rendering of `entries[i]`; and rendering
the complete index range reproduces the whole entry list rendered in order,
with nothing reordered, dropped or duplicated. -/
theorem C4_rows_in_received_order :
    (∀ (logs : List LogEntry) (i : Nat),
      (logsWithKeys logs).get? i
        = (logs.get? i).map (fun entry =>
            { type := entry.type, content := entry.content,
              key := "log-" ++ toString i, originalIndex := i })) ∧
    (∀ logs : List LogEntry, (logsWithKeys logs).length = logs.length) ∧
    (∀ logs : List LogEntry,
      (logsWithKeys logs).map vplRow = logs.map formatLogLine) ∧
    (∀ (entries : List PatchTypeWithKey) (i : Nat) (h : i < entries.length),
      convRowAt entries i = some (convRenderEntry (entries.get ⟨i, h⟩))) ∧
    (∀ entries : List PatchTypeWithKey,
      convRenderRows entries (List.range entries.length)
        = entries.map convRenderEntry) := by
  refine ⟨logsWithKeys_get?, ?_, ?_, ?_, convRenderRows_full⟩
  · intro logs
    simp [logsWithKeys]
  · intro logs
    exact zipWithKeys_map_vplRow logs (List.range logs.length)
      (List.length_range logs.length)
  · intro entries i h
    unfold convRowAt
    rw [List.get?_eq_get h]
    rfl

/-- Witness for C4 at a concrete two-entry conversation list and a concrete
two-entry log list. -/
theorem C4_witness :
    (logsWithKeys
        [{ type := LogChannel.stdout, content := "a" },
         { type := LogChannel.stderr, content := "b" }]).get? 1
      = some { type := LogChannel.stderr, content := "b", key := "log-1",
               originalIndex := 1 } ∧
    convRowAt [PatchTypeWithKey.stdoutP "k0" "x", PatchTypeWithKey.stderrP "k1" "y"] 1
      = some (ConvRow.textRow "k1" "y") ∧
    convRenderRows
        [PatchTypeWithKey.stdoutP "k0" "x", PatchTypeWithKey.stderrP "k1" "y"]
        (List.range 2)
      = [ConvRow.textRow "k0" "x", ConvRow.textRow "k1" "y"] := by
  have h1 := C4_rows_in_received_order.1
    [{ type := LogChannel.stdout, content := "a" },
     { type := LogChannel.stderr, content := "b" }] 1
  have h2 := C4_rows_in_received_order.2.2.2.1
    [PatchTypeWithKey.stdoutP "k0" "x", PatchTypeWithKey.stderrP "k1" "y"] 1
    (by decide)
  have h3 := C4_rows_in_received_order.2.2.2.2
    [PatchTypeWithKey.stdoutP "k0" "x", PatchTypeWithKey.stderrP "k1" "y"]
  exact ⟨by rw [h1]; rfl, by rw [h2]; rfl, by simpa using h3⟩

/-- Helper: once the `didInitScroll` ref is set, the log viewer's
initial-scroll effect never triggers again. -/
theorem plvInitScrollRun_done (lens : List Nat) :
    plvInitScrollRun true lens = List.replicate lens.length false := by
  induction lens with
  | nil => rfl
  | cons l rest ih =>
      simp [plvInitScrollRun, plvInitScrollEffect, ih, List.replicate_succ]

/-- Helper: once the `didInitScroll` ref is set, the conversation lists'
initial-scroll effect never triggers again. -/
theorem convInitScrollRun_done (obs : List (Nat × Bool)) :
    convInitScrollRun true obs = List.replicate obs.length false := by
  induction obs with
  | nil => rfl
  | cons o rest ih =>
      simp [convInitScrollRun, convInitScrollEffect, ih, List.replicate_succ]

/-- Claim C6: per mount, the initial jump to the bottom runs at most once —
it triggers exactly at the first observation with a non-empty list (for the
log viewers) resp. a non-empty list with loading finished (for the
conversation lists), and once the flag is set no later observation triggers
the initial-scroll path again. -/
theorem C6_initial_scroll_once :
    (∀ lens : List Nat, (plvInitScrollRun false lens).count true ≤ 1) ∧
    (∀ lens : List Nat,
      plvInitScrollRun true lens = List.replicate lens.length false) ∧
    (∀ (zeros rest : List Nat) (l : Nat), (∀ z ∈ zeros, z = 0) → 0 < l →
      plvInitScrollRun false (zeros ++ l :: rest)
        = List.replicate zeros.length false
            ++ true :: List.replicate rest.length false) ∧
    (∀ obs : List (Nat × Bool), (convInitScrollRun false obs).count true ≤ 1) ∧
    (∀ obs : List (Nat × Bool),
      convInitScrollRun true obs = List.replicate obs.length false) ∧
    (∀ (pre rest : List (Nat × Bool)) (l : Nat),
      (∀ o ∈ pre, o.1 = 0 ∨ o.2 = true) → 0 < l →
      convInitScrollRun false (pre ++ (l, false) :: rest)
        = List.replicate pre.length false
            ++ true :: List.replicate rest.length false) := by
  refine ⟨?_, plvInitScrollRun_done, ?_, ?_, convInitScrollRun_done, ?_⟩
  · intro lens
    induction lens with
    | nil => simp [plvInitScrollRun]
    | cons l rest ih =>
        by_cases h : 0 < l
        · simp [plvInitScrollRun, plvInitScrollEffect, h, plvInitScrollRun_done,
            List.count_replicate]
        · simpa [plvInitScrollRun, plvInitScrollEffect, h] using ih
  · intro zeros rest l hz hl
    induction zeros with
    | nil => simp [plvInitScrollRun, plvInitScrollEffect, hl, plvInitScrollRun_done]
    | cons z zs ih =>
        have hz0 : z = 0 := hz z (List.mem_cons_self z zs)
        have hzs : ∀ x ∈ zs, x = 0 := fun x hx => hz x (List.mem_cons_of_mem z hx)
        simp [plvInitScrollRun, plvInitScrollEffect, hz0, ih hzs,
          List.replicate_succ]
  · intro obs
    induction obs with
    | nil => simp [convInitScrollRun]
    | cons o rest ih =>
        by_cases h : 0 < o.1 ∧ o.2 = false
        · simp [convInitScrollRun, convInitScrollEffect, h,
            convInitScrollRun_done, List.count_replicate]
        · simpa [convInitScrollRun, convInitScrollEffect, h] using ih
  · intro pre rest l hp hl
    induction pre with
    | nil =>
        simp [convInitScrollRun, convInitScrollEffect, hl, convInitScrollRun_done]
    | cons o os ih =>
        have ho : o.1 = 0 ∨ o.2 = true := hp o (List.mem_cons_self o os)
        have hos : ∀ x ∈ os, x.1 = 0 ∨ x.2 = true :=
          fun x hx => hp x (List.mem_cons_of_mem o hx)
        have hneg : ¬(0 < o.1 ∧ o.2 = false) := by
          rcases ho with h1 | h2
          · intro hc
            rw [h1] at hc
            exact absurd hc.1 (by decide)
          · intro hc
            rw [h2] at hc
            exact absurd hc.2 (by decide)
        simp [convInitScrollRun, convInitScrollEffect, hneg, ih hos,
          List.replicate_succ]

/-- Witness for C6 at a concrete observation sequence: two empty
observations, then data, then further growth — the trigger fires exactly
once, at the first qualifying observation. -/
theorem C6_witness :
    (plvInitScrollRun false [0, 0, 3, 5]).count true ≤ 1 ∧
    plvInitScrollRun false [0, 0, 3, 5] = [false, false, true, false] ∧
    convInitScrollRun false [(0, true), (2, true), (2, false), (4, false)]
      = [false, false, true, false] := by
  have h1 := C6_initial_scroll_once.1 [0, 0, 3, 5]
  have h2 := C6_initial_scroll_once.2.2.1 [0, 0] [5] 3
    (by intro z hz; fin_cases hz <;> rfl) (by decide)
  have h3 := C6_initial_scroll_once.2.2.2.2.2 [(0, true), (2, true)] [(4, false)] 2
    (by intro o ho; fin_cases ho
        · exact Or.inl rfl
        · exact Or.inr rfl)
    (by decide)
  exact ⟨h1, by simpa using h2, by simpa using h3⟩

/-- Helper: when the timer is pending and an update is pending, the fire
applies exactly the pending update. -/
theorem convFire_applies (s : ConvState) (d : Nat) (p : EntriesUpdate)
    (hd : s.debounceDeadline = some d) (hp : s.pendingUpdate = some p) :
    convFire s
      = { s with debounceDeadline := none, addTypeRef := p.addType,
                 entriesState := p.entries, contextEntries := p.entries,
                 loading := if s.loading then p.loading else s.loading,
                 applied := s.applied ++ [p] } := by
  unfold convFire
  rw [hd, hp]

/-- Helper: step equation of `convRunUpdates` on a cons cell. -/
theorem convRunUpdates_cons (s : ConvState) (t : Nat) (u : EntriesUpdate)
    (rest : List (Nat × EntriesUpdate)) :
    convRunUpdates s ((t, u) :: rest)
      = convRunUpdates (convOnEntriesUpdated t
          (match s.debounceDeadline with
           | some d => if d ≤ t then convFire s else s
           | none => s) u) rest := rfl

/-- Helper: while every further update arrives inside the debounce window
opened by its predecessor, no timer ever fires: the run only overwrites the
pending update and deadline, and applies nothing. -/
theorem convRunUpdates_within_window :
    ∀ (rest : List (Nat × EntriesUpdate)) (s : ConvState) (t : Nat)
      (u : EntriesUpdate),
      s.pendingUpdate = some u →
      s.debounceDeadline = some (t + debounceDelayMs) →
      arrivalsOk (t + debounceDelayMs) rest = true →
      (convRunUpdates s rest).pendingUpdate = some (rest.getLastD (t, u)).2 ∧
      (convRunUpdates s rest).debounceDeadline
        = some ((rest.getLastD (t, u)).1 + debounceDelayMs) ∧
      (convRunUpdates s rest).applied = s.applied ∧
      (convRunUpdates s rest).entriesState = s.entriesState ∧
      (convRunUpdates s rest).contextEntries = s.contextEntries ∧
      (convRunUpdates s rest).addTypeRef = s.addTypeRef ∧
      (convRunUpdates s rest).loading = s.loading := by
  intro rest
  induction rest with
  | nil =>
      intro s t u hp hd _
      simp [convRunUpdates, List.getLastD, hp, hd]
  | cons tu rest' ih =>
      intro s t u hp hd harr
      obtain ⟨t', u'⟩ := tu
      have ht' : t' < t + debounceDelayMs := by
        have := harr
        simp [arrivalsOk] at this
        exact this.1
      have harr' : arrivalsOk (t' + debounceDelayMs) rest' = true := by
        have := harr
        simp [arrivalsOk] at this
        exact this.2
      have hrun : convRunUpdates s ((t', u') :: rest')
          = convRunUpdates (convOnEntriesUpdated t' s u') rest' := by
        rw [convRunUpdates_cons, hd]
        simp only [if_neg (Nat.not_le_of_lt ht')]
      rw [hrun, List.getLastD_cons]
      exact ih (convOnEntriesUpdated t' s u') t' u' rfl rfl harr'

/-- Claim C5: in the debounced `ConversationList`, every entries-update
callback overwrites the single pending-update ref and restarts the 100 ms
timer; consequently, over any burst of updates in which each one arrives
within the window opened by its predecessor, the final timer fire applies
exactly the most recent update — its entries reach the component state and
the shared entries context, its add type reaches the add-type ref, and the
ghost application history grows by that single update, so every superseded
update of the burst is never applied. -/
theorem C5_debounce_applies_latest :
    (∀ (now : Nat) (s : ConvState) (u : EntriesUpdate),
      (convOnEntriesUpdated now s u).pendingUpdate = some u ∧
      (convOnEntriesUpdated now s u).debounceDeadline
        = some (now + debounceDelayMs)) ∧
    (∀ (s : ConvState) (t0 : Nat) (u0 : EntriesUpdate)
        (rest : List (Nat × EntriesUpdate)),
      s.debounceDeadline = none →
      arrivalsOk (t0 + debounceDelayMs) rest = true →
      (convFire (convRunUpdates s ((t0, u0) :: rest))).applied
          = s.applied ++ [(rest.getLastD (t0, u0)).2] ∧
      (convFire (convRunUpdates s ((t0, u0) :: rest))).entriesState
          = (rest.getLastD (t0, u0)).2.entries ∧
      (convFire (convRunUpdates s ((t0, u0) :: rest))).contextEntries
          = (rest.getLastD (t0, u0)).2.entries ∧
      (convFire (convRunUpdates s ((t0, u0) :: rest))).addTypeRef
          = (rest.getLastD (t0, u0)).2.addType ∧
      (convFire (convRunUpdates s ((t0, u0) :: rest))).loading
          = if s.loading then (rest.getLastD (t0, u0)).2.loading
            else s.loading) := by
  constructor
  · intro now s u
    exact ⟨rfl, rfl⟩
  · intro s t0 u0 rest hnone harr
    have hrun : convRunUpdates s ((t0, u0) :: rest)
        = convRunUpdates (convOnEntriesUpdated t0 s u0) rest := by
      rw [convRunUpdates_cons, hnone]
    have hw := convRunUpdates_within_window rest
      (convOnEntriesUpdated t0 s u0) t0 u0 rfl rfl harr
    set sF := convRunUpdates (convOnEntriesUpdated t0 s u0) rest with hsF
    have hfire := convFire_applies sF
      ((rest.getLastD (t0, u0)).1 + debounceDelayMs)
      (rest.getLastD (t0, u0)).2 hw.2.1 hw.1
    rw [hrun, hfire]
    refine ⟨?_, rfl, rfl, rfl, ?_⟩
    · simp [hw.2.2.1, convOnEntriesUpdated]
    · simp [hw.2.2.2.2.2.2, convOnEntriesUpdated]

/-- Witness for C5: a concrete burst — an update at t=0 superseded by one at
t=50, inside the 100 ms window — from a freshly mounted state: only the
second update is applied, to state and context alike. -/
theorem C5_witness :
    (convFire (convRunUpdates
        { entriesState := [], loading := true, didInitScroll := false,
          prevEntriesLength := 0, atBottom := true,
          addTypeRef := AddEntryType.initial, contextEntries := [],
          pendingUpdate := none, debounceDeadline := none, applied := [] }
        [(0, { entries := [PatchTypeWithKey.stdoutP "a" "1"],
               addType := AddEntryType.initial, loading := true }),
         (50, { entries := [PatchTypeWithKey.stdoutP "a" "1",
                            PatchTypeWithKey.stdoutP "b" "2"],
                addType := AddEntryType.running, loading := false })])).applied
      = [{ entries := [PatchTypeWithKey.stdoutP "a" "1",
                       PatchTypeWithKey.stdoutP "b" "2"],
           addType := AddEntryType.running, loading := false }] ∧
    (convFire (convRunUpdates
        { entriesState := [], loading := true, didInitScroll := false,
          prevEntriesLength := 0, atBottom := true,
          addTypeRef := AddEntryType.initial, contextEntries := [],
          pendingUpdate := none, debounceDeadline := none, applied := [] }
        [(0, { entries := [PatchTypeWithKey.stdoutP "a" "1"],
               addType := AddEntryType.initial, loading := true }),
         (50, { entries := [PatchTypeWithKey.stdoutP "a" "1",
                            PatchTypeWithKey.stdoutP "b" "2"],
                addType := AddEntryType.running, loading := false })])).entriesState
      = [PatchTypeWithKey.stdoutP "a" "1", PatchTypeWithKey.stdoutP "b" "2"] ∧
    (convFire (convRunUpdates
        { entriesState := [], loading := true, didInitScroll := false,
          prevEntriesLength := 0, atBottom := true,
          addTypeRef := AddEntryType.initial, contextEntries := [],
          pendingUpdate := none, debounceDeadline := none, applied := [] }
        [(0, { entries := [PatchTypeWithKey.stdoutP "a" "1"],
               addType := AddEntryType.initial, loading := true }),
         (50, { entries := [PatchTypeWithKey.stdoutP "a" "1",
                            PatchTypeWithKey.stdoutP "b" "2"],
                addType := AddEntryType.running, loading := false })])).loading
      = false := by
  have h := C5_debounce_applies_latest.2
    { entriesState := [], loading := true, didInitScroll := false,
      prevEntriesLength := 0, atBottom := true,
      addTypeRef := AddEntryType.initial, contextEntries := [],
      pendingUpdate := none, debounceDeadline := none, applied := [] }
    0
    { entries := [PatchTypeWithKey.stdoutP "a" "1"],
      addType := AddEntryType.initial, loading := true }
    [(50, { entries := [PatchTypeWithKey.stdoutP "a" "1",
                        PatchTypeWithKey.stdoutP "b" "2"],
            addType := AddEntryType.running, loading := false })]
    rfl (by decide)
  refine ⟨by simpa using h.1, by simpa using h.2.1, by simpa using h.2.2.2.2⟩

/-- Claim C7: `ConversationList`'s unmount cleanup clears the pending
debounce timer, so a later fire is a no-op and no pending entries update is
ever applied after unmount; the log viewers register no cleanup for their
scroll timers, so unmount leaves every pending timer in place and the
scheduled callbacks still fire with unchanged behavior — in particular a
surviving deferred check against a container 10 px from the bottom still
emits a scroll command. -/
theorem C7_unmount_cancellation :
    (∀ s : ConvState, (convUnmount s).debounceDeadline = none) ∧
    (∀ s : ConvState, convFire (convUnmount s) = convUnmount s) ∧
    (∀ s : ConvState, (convFire (convUnmount s)).applied = s.applied) ∧
    (∀ pending : List LogTimerTask, plvUnmountCleanup pending = pending) ∧
    (∀ (pending : List LogTimerTask) (el : Option ScrollEl),
      (plvUnmountCleanup pending).map (fireLogTimer el)
        = pending.map (fireLogTimer el)) ∧
    fireLogTimer (some ⟨200, 180, 10⟩) LogTimerTask.deferredBottomCheck
      = some (ScrollCmd.scrollTo 200 ScrollBehavior.smooth) := by
  refine ⟨fun s => rfl, fun s => rfl, fun s => rfl, fun p => rfl,
    fun p el => rfl, ?_⟩
  decide

end VibeKanban
